import Mathlib

/-!
Shallow embedding of `src/phoenix/session/client.py` (the Phoenix session
client): the data model, the four public operations of `Client`
(`query_spans`, `get_evaluations`, `log_evaluations`, `log_traces`),
client construction, and the helper `_to_iso_format`.

External collaborators (pandas DataFrames, pyarrow streams, the active
session, protobuf messages) are modelled by the observations this layer
makes of them, exactly as the source uses them.
-/

namespace Phoenix

/-- A pandas DataFrame, as observed by this layer: the code only inspects
`df.shape` (rows, columns) and otherwise passes frames through opaquely. -/
structure DataFrame where
  nrows : Nat
  ncols : Nat
  deriving DecidableEq, Repr

/-- `df.shape` in pandas: the (rows, columns) pair. -/
def DataFrame.shape (df : DataFrame) : Nat × Nat := (df.nrows, df.ncols)

/-- One segment of a response byte stream as seen by the pyarrow codec:
either a well-formed Arrow IPC stream encoding one batch (read back as a
DataFrame by `reader.read_pandas()`), or bytes at which
`pa.ipc.open_stream` raises `ArrowInvalid` (including stream exhaustion). -/
inductive Chunk where
  | batch (df : DataFrame)
  | invalid
  deriving DecidableEq, Repr

/-- The `while True: try ... except ArrowInvalid: break` loop of
`query_spans` / `get_evaluations`: read batches from the shared cursor in
arrival order, stopping at the first position where decoding fails
(exhaustion included). -/
def decodeLoop : List Chunk → List DataFrame
  | [] => []
  | Chunk.invalid :: _ => []
  | Chunk.batch df :: rest => df :: decodeLoop rest

/-- A JSON value, as produced by `requests`' `json=` serialization of the
request dict (Python `None` becomes `null`). Span-query dicts carry opaque
string-valued filter fields. -/
inductive Json where
  | null
  | str (s : String)
  | bool (b : Bool)
  | arr (xs : List Json)
  | obj (fields : List (String × Json))
  deriving Repr

/-- Whether a JSON object has a field named `k` (a serialized request body
"contains the field `k`"). -/
def Json.hasKey (j : Json) (k : String) : Bool :=
  match j with
  | Json.obj fields => fields.any (fun f => f.fst == k)
  | _ => false

/-- Look up a field of a JSON object. -/
def Json.getKey (j : Json) (k : String) : Option Json :=
  match j with
  | Json.obj fields => (fields.find? (fun f => f.fst == k)).map Prod.snd
  | _ => none

/-- A `datetime.datetime`, as observed by this layer: the code only calls
`.isoformat()` (and tests truthiness, but Python datetimes are always
truthy). -/
structure Datetime where
  isoformat : String
  deriving DecidableEq, Repr

/-- `_to_iso_format` (client.py line 249-250):
`value.isoformat() if value else None`. A datetime object is always truthy,
so this is `None` exactly when `value` is `None`. -/
def toIsoFormat (value : Option Datetime) : Option String :=
  match value with
  | some v => some v.isoformat
  | none => none

/-- An `Optional[str]` dict entry as serialized into JSON by `requests`:
`None` serializes to `null`, a string to a JSON string. -/
def optStrJson : Option String → Json
  | some s => Json.str s
  | none => Json.null

/-- An `Optional[bool]` dict entry as serialized into JSON. -/
def optBoolJson : Option Bool → Json
  | some b => Json.bool b
  | none => Json.null

/-- A `SpanQuery` (from `phoenix.trace.dsl`, external): an opaque filter
specification, observed only through `q.to_dict()`, whose field values are
opaque serialized filter expressions. -/
structure SpanQuery where
  toDict : List (String × String)
  deriving DecidableEq, Repr

/-- `SpanQuery()`, the default unfiltered query (external constructor with
no arguments; its dict is some fixed value, opaque to this layer). -/
def SpanQuery.default : SpanQuery := ⟨[]⟩

/-- Python `or` on an optional string against a string default:
`x or d` falls through when `x` is `None` or the empty string. -/
def pyOrStr (x : Option String) (d : String) : String :=
  match x with
  | some s => if s = "" then d else s
  | none => d

/-- Truthiness of an `Optional[str]`: `None` and `""` are falsy. -/
def pyTruthyOptStr : Option String → Bool
  | some s => s ≠ ""
  | none => false

/-- An `Evaluations` object (from `phoenix.trace`, external), observed
through `Evaluations.from_pyarrow_reader` (decode from one Arrow batch)
and `to_pyarrow_table` (its canonical tabular form). -/
structure Evaluations where
  table : DataFrame
  deriving DecidableEq, Repr

/-- `Evaluations.from_pyarrow_reader(reader)`: build an Evaluations object
from one decoded Arrow batch. -/
def Evaluations.fromPyarrowReader (df : DataFrame) : Evaluations := ⟨df⟩

/-- `evaluation.to_pyarrow_table()`: the tabular form that is Arrow-encoded
for upload. -/
def Evaluations.toPyarrowTable (e : Evaluations) : DataFrame := e.table

/-- One locally recorded span (a row of a `TraceDataset`), opaque to this
layer: only `encode_span_to_otlp` consumes it. -/
structure Span where
  spanId : Nat
  deriving DecidableEq, Repr

/-- A `TraceDataset` (external), observed through `to_spans()`. -/
structure TraceDataset where
  spans : List Span
  deriving DecidableEq, Repr

/-- `trace_dataset.to_spans()`. -/
def TraceDataset.toSpans (t : TraceDataset) : List Span := t.spans

/-- An OTLP-encoded span, the opaque output of `encode_span_to_otlp`
(from `phoenix.trace.otel`, external). -/
structure OtlpSpan where
  source : Span
  deriving DecidableEq, Repr

/-- `encode_span_to_otlp(span)`. -/
def encodeSpanToOtlp (s : Span) : OtlpSpan := ⟨s⟩

/-- Protobuf `AnyValue` with a string value, as constructed in
`log_traces`. -/
structure AnyValue where
  stringValue : String
  deriving DecidableEq, Repr

/-- Protobuf `KeyValue`. -/
structure KeyValue where
  key : String
  value : AnyValue
  deriving DecidableEq, Repr

/-- Protobuf `Resource`: attribute list. -/
structure Resource where
  attributes : List KeyValue
  deriving DecidableEq, Repr

/-- Protobuf `ScopeSpans`: the instrumentation-scope wrapper holding
encoded spans. -/
structure ScopeSpans where
  spans : List OtlpSpan
  deriving DecidableEq, Repr

/-- Protobuf `ResourceSpans`: one resource with its scope wrappers. -/
structure ResourceSpans where
  resource : Resource
  scopeSpans : List ScopeSpans
  deriving DecidableEq, Repr

/-- Protobuf `ExportTraceServiceRequest`: the top-level export message. -/
structure ExportTraceServiceRequest where
  resourceSpans : List ResourceSpans
  deriving DecidableEq, Repr

/-- The body of an outgoing HTTP request, recorded at the semantic level
at which the source constructs it: a JSON dict (`json=`), one Arrow
IPC-encoded table (`pa.ipc.new_stream` + `write_table`), or a
gzip-compressed serialized protobuf message. -/
inductive RequestBody where
  | jsonBody (j : Json)
  | arrowTable (table : DataFrame)
  | gzippedProto (msg : ExportTraceServiceRequest)

/-- One outgoing HTTP request issued through `self._session`. -/
structure HttpRequest where
  method : String
  path : String
  body : RequestBody
  headers : List (String × String)

/-- An incoming HTTP response, as observed by this layer:
`response.status_code`, `response.content.decode()` (the body as text, for
422 diagnostics), and the same body as a pyarrow-readable chunk stream. -/
structure Response where
  statusCode : Nat
  text : String
  chunks : List Chunk

/-- `response.raise_for_status()` raises `HTTPError` exactly for client
and server error codes (400–599). -/
def raisesForStatus (status : Nat) : Bool :=
  400 ≤ status && status < 600

/-- The error taxonomy surfaced by the client: `ValueError` carrying the
server's diagnostic text (invalid query), or the `HTTPError` from
`raise_for_status` (transport failure carrying the status). -/
inductive ClientError where
  | invalidQuery (message : String)
  | transportFailure (status : Nat)
  deriving DecidableEq, Repr

/-- The value returned by `query_spans`:
`Optional[Union[pd.DataFrame, List[pd.DataFrame]]]` — Python `None`, a
single DataFrame, or a list of DataFrames. -/
inductive QueryResult where
  | none
  | single (df : DataFrame)
  | multiple (dfs : List DataFrame)
  deriving DecidableEq, Repr

/-- The in-process active session (`px.active_session()`, external),
observed through the two methods this layer delegates to. Its presence is
`Option ActiveSession`. -/
structure ActiveSession where
  querySpans : List SpanQuery → Option Datetime → Option Datetime →
    Option Bool → String → QueryResult
  getEvaluations : String → List Evaluations

/-- The client state fixed at construction: the resolved base URL and the
local-shortcut flag `self._use_active_session_if_available`. -/
structure Client where
  useActiveSessionIfAvailable : Bool
  baseUrl : String

/-- `Client.__init__` (lines 34–61): the flag is
`use_active_session_if_available and not endpoint` (Python truthiness: an
endpoint of `None` or `""` is falsy); the base URL is
`endpoint or get_env_collector_endpoint() or f"http://{host}:{port}"`,
with host `0.0.0.0` rewritten to `127.0.0.1`. The construction-time
liveness probe only logs and never affects state. -/
def Client.construct (endpoint : Option String)
    (useActiveSessionIfAvailable : Bool)
    (envCollectorEndpoint : Option String) (envHost : String)
    (envPort : Nat) : Client :=
  let flag := useActiveSessionIfAvailable && !(pyTruthyOptStr endpoint)
  let host := if envHost = "0.0.0.0" then "127.0.0.1" else envHost
  let defaultUrl := "http://" ++ host ++ ":" ++ toString envPort
  let baseUrl := pyOrStr endpoint (pyOrStr envCollectorEndpoint defaultUrl)
  { useActiveSessionIfAvailable := flag, baseUrl := baseUrl }

/-- The JSON request body built by `query_spans` (lines 99–105). -/
def querySpansBody (queries : List SpanQuery) (startTime stopTime : Option Datetime)
    (rootSpansOnly : Option Bool) (projectName : String) : Json :=
  Json.obj
    [ ("queries", Json.arr (queries.map (fun q =>
        Json.obj (q.toDict.map (fun f => (f.fst, Json.str f.snd)))))),
      ("start_time", optStrJson (toIsoFormat startTime)),
      ("stop_time", optStrJson (toIsoFormat stopTime)),
      ("root_spans_only", optBoolJson rootSpansOnly),
      ("project_name", Json.str projectName) ]

/-- The single-vs-multiple collapsing applied to the decoded batches
(lines 121–124): one batch is returned directly, unless it is 0×0, in
which case `None` is returned; otherwise the list is returned unmodified. -/
def collapseResults : List DataFrame → QueryResult
  | [df] => if df.shape = (0, 0) then QueryResult.none else QueryResult.single df
  | results => QueryResult.multiple results

/-- The remote path of `query_spans` (lines 97–124): issue the GET, then
classify the status (404 → `None`, 422 → `ValueError` with the body text,
other errors → `raise_for_status`) and decode the stream on success. -/
def Client.querySpansRemote (queries : List SpanQuery)
    (startTime stopTime : Option Datetime) (rootSpansOnly : Option Bool)
    (projectName : String) (response : Response) :
    Except ClientError QueryResult × List HttpRequest :=
  let req : HttpRequest :=
    { method := "GET", path := "/v1/spans",
      body := RequestBody.jsonBody
        (querySpansBody queries startTime stopTime rootSpansOnly projectName),
      headers := [] }
  if response.statusCode = 404 then
    (Except.ok QueryResult.none, [req])
  else if response.statusCode = 422 then
    (Except.error (ClientError.invalidQuery response.text), [req])
  else if raisesForStatus response.statusCode then
    (Except.error (ClientError.transportFailure response.statusCode), [req])
  else
    (Except.ok (collapseResults (decodeLoop response.chunks)), [req])

/-- `Client.query_spans` (lines 63–124). Environment lookups
(`get_env_project_name`, `px.active_session()`) and the transport's
response are passed in explicitly. Returns the caller-visible outcome
(normal return or raised error) paired with the list of HTTP requests
issued, in order. -/
def Client.querySpans (c : Client) (envProjectName : String)
    (active : Option ActiveSession) (queries : List SpanQuery)
    (startTime stopTime : Option Datetime) (rootSpansOnly : Option Bool)
    (projectName : Option String) (response : Response) :
    Except ClientError QueryResult × List HttpRequest :=
  let projectName := pyOrStr projectName envProjectName
  let queries := if queries.isEmpty then [SpanQuery.default] else queries
  match active with
  | some session =>
    if c.useActiveSessionIfAvailable then
      (Except.ok (session.querySpans queries startTime stopTime rootSpansOnly
        projectName), [])
    else
      Client.querySpansRemote queries startTime stopTime rootSpansOnly
        projectName response
  | none =>
    Client.querySpansRemote queries startTime stopTime rootSpansOnly
      projectName response

/-- The remote path of `get_evaluations` (lines 145–163): issue the GET,
classify the status, then decode every batch into an `Evaluations` object
(no collapsing). -/
def Client.getEvaluationsRemote (projectName : String) (response : Response) :
    Except ClientError (List Evaluations) × List HttpRequest :=
  let req : HttpRequest :=
    { method := "GET", path := "/v1/evaluations",
      body := RequestBody.jsonBody
        (Json.obj [("project_name", Json.str projectName)]),
      headers := [] }
  if response.statusCode = 404 then
    (Except.ok [], [req])
  else if response.statusCode = 422 then
    (Except.error (ClientError.invalidQuery response.text), [req])
  else if raisesForStatus response.statusCode then
    (Except.error (ClientError.transportFailure response.statusCode), [req])
  else
    (Except.ok ((decodeLoop response.chunks).map Evaluations.fromPyarrowReader),
      [req])

/-- `Client.get_evaluations` (lines 126–163). -/
def Client.getEvaluations (c : Client) (envProjectName : String)
    (active : Option ActiveSession) (projectName : Option String)
    (response : Response) :
    Except ClientError (List Evaluations) × List HttpRequest :=
  let projectName := pyOrStr projectName envProjectName
  match active with
  | some session =>
    if c.useActiveSessionIfAvailable then
      (Except.ok (session.getEvaluations projectName), [])
    else
      Client.getEvaluationsRemote projectName response
  | none =>
    Client.getEvaluationsRemote projectName response

/-- The per-item POST-and-`raise_for_status` loop shared by
`log_evaluations` and `log_traces`: request `i` receives status
`statuses i`; a failing status raises immediately, so later requests are
never issued. Returns the outcome and the requests actually issued, in
order. -/
def postEach (reqs : List HttpRequest) (statuses : Nat → Nat) (i : Nat) :
    Except ClientError Unit × List HttpRequest :=
  match reqs with
  | [] => (Except.ok (), [])
  | req :: rest =>
    if raisesForStatus (statuses i) then
      (Except.error (ClientError.transportFailure (statuses i)), [req])
    else
      let tail := postEach rest statuses (i + 1)
      (tail.fst, req :: tail.snd)

/-- The upload request `log_evaluations` builds for one `Evaluations`
object (lines 188–200): its table Arrow-encoded as the body, the
Arrow content type, and a `project-name` header iff the resolved project
name is truthy. -/
def evalUploadRequest (projectName : String) (evaluation : Evaluations) :
    HttpRequest :=
  { method := "POST", path := "/v1/evaluations",
    body := RequestBody.arrowTable evaluation.toPyarrowTable,
    headers := [("content-type", "application/x-pandas-arrow")] ++
      (if projectName ≠ "" then [("project-name", projectName)] else []) }

/-- `Client.log_evaluations` (lines 174–200). Note: this operation has no
active-session branch in the source; it always takes the network path. -/
def Client.logEvaluations (_c : Client) (envProjectName : String)
    (_active : Option ActiveSession) (evals : List Evaluations)
    (projectName : Option String) (statuses : Nat → Nat) :
    Except ClientError Unit × List HttpRequest :=
  let projectName := pyOrStr projectName envProjectName
  postEach (evals.map (evalUploadRequest projectName)) statuses 0

/-- The `ExportTraceServiceRequest` built for one span in `log_traces`
(lines 218–235): one `ResourceSpans` holding one `Resource` whose sole
attribute is the project name under the key
`openinference.project.name`, one `ScopeSpans`, and the one encoded
span. -/
def otlpMessageForSpan (projectName : String) (span : Span) :
    ExportTraceServiceRequest :=
  { resourceSpans :=
      [ { resource :=
            { attributes :=
                [ { key := "openinference.project.name",
                    value := { stringValue := projectName } } ] },
          scopeSpans := [{ spans := [encodeSpanToOtlp span] }] } ] }

/-- The export request `log_traces` posts for one span (lines 236–246):
the serialized message gzip-compressed, with protobuf content type and
gzip content encoding. -/
def traceExportRequest (projectName : String) (span : Span) : HttpRequest :=
  { method := "POST", path := "/v1/traces",
    body := RequestBody.gzippedProto (otlpMessageForSpan projectName span),
    headers := [("content-type", "application/x-protobuf"),
                ("content-encoding", "gzip")] }

/-- `Client.log_traces` (lines 202–246). Note: this operation has no
active-session branch in the source; it always takes the network path. -/
def Client.logTraces (_c : Client) (envProjectName : String)
    (_active : Option ActiveSession) (traceDataset : TraceDataset)
    (projectName : Option String) (statuses : Nat → Nat) :
    Except ClientError Unit × List HttpRequest :=
  let projectName := pyOrStr projectName envProjectName
  let spans := traceDataset.toSpans
  postEach (spans.map (traceExportRequest projectName)) statuses 0

/-! ## Helper lemmas -/

/-- On a 2xx/3xx status other than 404 and 422, the remote span-query path
returns the collapsed decoded batches. -/
lemma querySpansRemote_success (queries : List SpanQuery)
    (startTime stopTime : Option Datetime) (rootSpansOnly : Option Bool)
    (projectName : String) (response : Response)
    (hok : response.statusCode = 200) :
    (Client.querySpansRemote queries startTime stopTime rootSpansOnly
        projectName response).fst =
      Except.ok (collapseResults (decodeLoop response.chunks)) := by
  simp [Client.querySpansRemote, hok, raisesForStatus]

/-- With no active session discoverable, `query_spans` takes the remote
path. -/
lemma querySpans_no_active (c : Client) (envProjectName : String)
    (queries : List SpanQuery) (startTime stopTime : Option Datetime)
    (rootSpansOnly : Option Bool) (projectName : Option String)
    (response : Response) :
    Client.querySpans c envProjectName none queries startTime stopTime
        rootSpansOnly projectName response =
      Client.querySpansRemote
        (if queries.isEmpty then [SpanQuery.default] else queries)
        startTime stopTime rootSpansOnly
        (pyOrStr projectName envProjectName) response := by
  simp [Client.querySpans]

/-- Collapsing a singleton batch list inspects the batch's shape. -/
lemma collapseResults_singleton (df : DataFrame) :
    collapseResults [df] =
      if df.shape = (0, 0) then QueryResult.none
      else QueryResult.single df := rfl

/-- Collapsing a two-or-more-element batch list returns it unmodified. -/
lemma collapseResults_of_one_lt (results : List DataFrame)
    (h : 1 < results.length) :
    collapseResults results = QueryResult.multiple results := by
  match results with
  | [] => simp at h
  | [df] => simp at h
  | a :: b :: rest => rfl

/-- When every status is a success, the post loop issues every request in
order and returns normally. -/
lemma postEach_all_success (reqs : List HttpRequest) (statuses : Nat → Nat)
    (i : Nat) (h : ∀ j, raisesForStatus (statuses j) = false) :
    postEach reqs statuses i = (Except.ok (), reqs) := by
  induction reqs generalizing i with
  | nil => rfl
  | cons req rest ih => simp [postEach, h i, ih (i + 1)]

/-- When request `k` is the first to receive a failing status, the post
loop raises that failure immediately: exactly the first `k + 1` requests
are issued and none after. -/
lemma postEach_stops_at_first_failure (reqs : List HttpRequest)
    (statuses : Nat → Nat) (k i : Nat) (hk : k < reqs.length)
    (hbefore : ∀ j < k, raisesForStatus (statuses (i + j)) = false)
    (hfail : raisesForStatus (statuses (i + k)) = true) :
    postEach reqs statuses i =
      (Except.error (ClientError.transportFailure (statuses (i + k))),
        reqs.take (k + 1)) := by
  induction reqs generalizing i k with
  | nil => simp at hk
  | cons req rest ih =>
    match k with
    | 0 =>
      simp only [Nat.add_zero] at hfail
      simp [postEach, hfail]
    | k' + 1 =>
      have hhead : raisesForStatus (statuses i) = false := by
        have := hbefore 0 (Nat.succ_pos k')
        simpa using this
      have hbefore' : ∀ j < k', raisesForStatus (statuses (i + 1 + j)) = false := by
        intro j hj
        have := hbefore (j + 1) (Nat.succ_lt_succ hj)
        rw [show i + 1 + j = i + (j + 1) by omega] at *
        exact this
      have hfail' : raisesForStatus (statuses (i + 1 + k')) = true := by
        rw [show i + 1 + k' = i + (k' + 1) by omega]
        exact hfail
      have hk' : k' < rest.length := by
        simpa using Nat.lt_of_succ_lt_succ hk
      have := ih k' (i + 1) hk' hbefore' hfail'
      simp only [postEach, hhead, Bool.false_eq_true, if_false, this]
      rw [show i + 1 + k' = i + (k' + 1) by omega, List.take_succ_cons]

/-! ## Claim theorems -/

/-- C2: on a successful `query_spans` response, if the body decodes to
exactly one 0×0 batch the call returns `None`; if it decodes to exactly
one non-empty batch it returns that batch directly as a single DataFrame;
if it decodes to more than one batch it returns the ordered list of all of
them, with no collapsing and no filtering of empty entries. -/
theorem querySpans_collapsing_rule (c : Client) (envProjectName : String)
    (queries : List SpanQuery) (startTime stopTime : Option Datetime)
    (rootSpansOnly : Option Bool) (projectName : Option String)
    (response : Response) (hok : response.statusCode = 200) :
    (∀ df : DataFrame, decodeLoop response.chunks = [df] →
      df.shape = (0, 0) →
      (Client.querySpans c envProjectName none queries startTime stopTime
          rootSpansOnly projectName response).fst =
        Except.ok QueryResult.none) ∧
    (∀ df : DataFrame, decodeLoop response.chunks = [df] →
      df.shape ≠ (0, 0) →
      (Client.querySpans c envProjectName none queries startTime stopTime
          rootSpansOnly projectName response).fst =
        Except.ok (QueryResult.single df)) ∧
    (1 < (decodeLoop response.chunks).length →
      (Client.querySpans c envProjectName none queries startTime stopTime
          rootSpansOnly projectName response).fst =
        Except.ok (QueryResult.multiple (decodeLoop response.chunks))) := by
  rw [querySpans_no_active]
  refine ⟨?_, ?_, ?_⟩
  · intro df hdec hempty
    rw [querySpansRemote_success _ _ _ _ _ _ hok, hdec,
      collapseResults_singleton, if_pos hempty]
  · intro df hdec hnonempty
    rw [querySpansRemote_success _ _ _ _ _ _ hok, hdec,
      collapseResults_singleton, if_neg hnonempty]
  · intro hlen
    rw [querySpansRemote_success _ _ _ _ _ _ hok,
      collapseResults_of_one_lt _ hlen]

/-- Witness for C2 at concrete inputs: a single non-empty batch is
returned directly, exercising the middle case of the collapsing rule. -/
theorem querySpans_collapsing_rule_witness :
    (Client.querySpans ⟨true, "http://127.0.0.1:6006"⟩ "default" none []
        none none none none
        ⟨200, "", [Chunk.batch ⟨2, 3⟩]⟩).fst =
      Except.ok (QueryResult.single ⟨2, 3⟩) :=
  (querySpans_collapsing_rule ⟨true, "http://127.0.0.1:6006"⟩ "default" []
      none none none none ⟨200, "", [Chunk.batch ⟨2, 3⟩]⟩ rfl).2.1
    ⟨2, 3⟩ rfl (by decide)

/-- C4: a 422 response makes both `query_spans` and `get_evaluations`
raise an invalid-query error (`ValueError`) whose message is exactly the
response body text, verbatim. -/
theorem status_422_raises_invalid_query (c : Client) (envProjectName : String)
    (queries : List SpanQuery) (startTime stopTime : Option Datetime)
    (rootSpansOnly : Option Bool) (projectName evalProjectName : Option String)
    (response : Response) (h422 : response.statusCode = 422) :
    (Client.querySpans c envProjectName none queries startTime stopTime
        rootSpansOnly projectName response).fst =
      Except.error (ClientError.invalidQuery response.text) ∧
    (Client.getEvaluations c envProjectName none evalProjectName
        response).fst =
      Except.error (ClientError.invalidQuery response.text) := by
  constructor
  · rw [querySpans_no_active]
    simp [Client.querySpansRemote, h422]
  · simp [Client.getEvaluations, Client.getEvaluationsRemote, h422]

/-- Witness for C4 at a concrete 422 response whose body is the
diagnostic text. -/
theorem status_422_raises_invalid_query_witness :
    (Client.querySpans ⟨false, "u"⟩ "default" none [] none none none none
        ⟨422, "field x is required", []⟩).fst =
      Except.error (ClientError.invalidQuery "field x is required") :=
  (status_422_raises_invalid_query ⟨false, "u"⟩ "default" [] none none none
      none none ⟨422, "field x is required", []⟩ rfl).1

/-- C5: a 404 response makes `query_spans` return `None` and
`get_evaluations` return the empty list; neither raises. -/
theorem status_404_returns_absent (c : Client) (envProjectName : String)
    (queries : List SpanQuery) (startTime stopTime : Option Datetime)
    (rootSpansOnly : Option Bool) (projectName evalProjectName : Option String)
    (response : Response) (h404 : response.statusCode = 404) :
    (Client.querySpans c envProjectName none queries startTime stopTime
        rootSpansOnly projectName response).fst =
      Except.ok QueryResult.none ∧
    (Client.getEvaluations c envProjectName none evalProjectName
        response).fst =
      Except.ok ([] : List Evaluations) := by
  constructor
  · rw [querySpans_no_active]
    simp [Client.querySpansRemote, h404]
  · simp [Client.getEvaluations, Client.getEvaluationsRemote, h404]

/-- Witness for C5 at a concrete 404 response. -/
theorem status_404_returns_absent_witness :
    (Client.querySpans ⟨false, "u"⟩ "default" none [] none none none none
        ⟨404, "", []⟩).fst = Except.ok QueryResult.none :=
  (status_404_returns_absent ⟨false, "u"⟩ "default" [] none none none
      none none ⟨404, "", []⟩ rfl).1

/-- C10: on a successful response whose body decodes to zero batches,
`query_spans` returns the empty list (not `None`, and no error is
raised). -/
theorem querySpans_zero_batches_empty_list (c : Client)
    (envProjectName : String) (queries : List SpanQuery)
    (startTime stopTime : Option Datetime) (rootSpansOnly : Option Bool)
    (projectName : Option String) (response : Response)
    (hok : response.statusCode = 200)
    (hzero : decodeLoop response.chunks = []) :
    (Client.querySpans c envProjectName none queries startTime stopTime
        rootSpansOnly projectName response).fst =
      Except.ok (QueryResult.multiple []) := by
  rw [querySpans_no_active, querySpansRemote_success _ _ _ _ _ _ hok, hzero]
  rfl

/-- Witness for C10: a 200 response whose body is not a decodable Arrow
stream yields the empty list. -/
theorem querySpans_zero_batches_empty_list_witness :
    (Client.querySpans ⟨false, "u"⟩ "default" none [] none none none none
        ⟨200, "", [Chunk.invalid]⟩).fst =
      Except.ok (QueryResult.multiple []) :=
  querySpans_zero_batches_empty_list ⟨false, "u"⟩ "default" [] none none
    none none ⟨200, "", [Chunk.invalid]⟩ rfl rfl

/-- C3 counterexample: with absent `start_time` and `stop_time`, the
serialized request body still contains both fields — they are present
with JSON `null` values, not omitted. The dict built at lines 99–105
always carries every key; `requests` serializes a `None` entry as
`null`. -/
theorem querySpansBody_absent_time_keys_present_cex :
    ((querySpansBody [SpanQuery.default] none none none
        "default").hasKey "start_time" = true) ∧
    ((querySpansBody [SpanQuery.default] none none none
        "default").hasKey "stop_time" = true) ∧
    ((querySpansBody [SpanQuery.default] none none none
        "default").getKey "start_time" = some Json.null) ∧
    ((querySpansBody [SpanQuery.default] none none none
        "default").getKey "stop_time" = some Json.null) :=
  ⟨rfl, rfl, rfl, rfl⟩

/-- C3 amended: an absent `start_time` (respectively `stop_time`) is
serialized as a JSON `null` field value — not a placeholder string and
not ISO text — while a present timestamp is serialized as its ISO-8601
text. -/
theorem querySpansBody_time_fields (queries : List SpanQuery)
    (startTime stopTime : Option Datetime) (rootSpansOnly : Option Bool)
    (projectName : String) :
    (startTime = none →
      (querySpansBody queries startTime stopTime rootSpansOnly
          projectName).getKey "start_time" = some Json.null) ∧
    (∀ d : Datetime, startTime = some d →
      (querySpansBody queries startTime stopTime rootSpansOnly
          projectName).getKey "start_time" = some (Json.str d.isoformat)) ∧
    (stopTime = none →
      (querySpansBody queries startTime stopTime rootSpansOnly
          projectName).getKey "stop_time" = some Json.null) ∧
    (∀ d : Datetime, stopTime = some d →
      (querySpansBody queries startTime stopTime rootSpansOnly
          projectName).getKey "stop_time" = some (Json.str d.isoformat)) := by
  refine ⟨fun h => ?_, fun d hd => ?_, fun h => ?_, fun d hd => ?_⟩
  · subst h; rfl
  · subst hd; rfl
  · subst h; rfl
  · subst hd; rfl

/-- Witness for C3 amended: concrete bodies with one absent and one
present timestamp. -/
theorem querySpansBody_time_fields_witness :
    ((querySpansBody [] none (some ⟨"2024-01-02T03:04:05"⟩) none
        "p").getKey "start_time" = some Json.null) ∧
    ((querySpansBody [] none (some ⟨"2024-01-02T03:04:05"⟩) none
        "p").getKey "stop_time" =
      some (Json.str "2024-01-02T03:04:05")) :=
  ⟨(querySpansBody_time_fields [] none (some ⟨"2024-01-02T03:04:05"⟩) none
      "p").1 rfl,
   (querySpansBody_time_fields [] none (some ⟨"2024-01-02T03:04:05"⟩) none
      "p").2.2.2 ⟨"2024-01-02T03:04:05"⟩ rfl⟩

/-- C6: calling `query_spans` with zero queries behaves identically —
same request body, same requests, same result — to calling it with
exactly one default `SpanQuery`, all other arguments equal (lines 87–88
substitute `(SpanQuery(),)` before anything else happens). -/
theorem querySpans_zero_queries_eq_default (c : Client)
    (envProjectName : String) (active : Option ActiveSession)
    (startTime stopTime : Option Datetime) (rootSpansOnly : Option Bool)
    (projectName : Option String) (response : Response) :
    Client.querySpans c envProjectName active [] startTime stopTime
        rootSpansOnly projectName response =
      Client.querySpans c envProjectName active [SpanQuery.default]
        startTime stopTime rootSpansOnly projectName response := rfl

/-- C1 counterexample: with the local-shortcut flag enabled and an active
session present, `log_evaluations` and `log_traces` still issue network
requests — neither has a delegation branch in the source (lines 174–200
and 202–246 never consult `px.active_session()`), so the claim that every
public operation delegates is false. -/
theorem log_operations_do_not_delegate_cex :
    (Client.logEvaluations ⟨true, "http://127.0.0.1:6006"⟩ "default"
        (some ⟨fun _ _ _ _ _ => QueryResult.none, fun _ => []⟩)
        [⟨⟨1, 2⟩⟩] none (fun _ => 200)).snd.length = 1 ∧
    (Client.logTraces ⟨true, "http://127.0.0.1:6006"⟩ "default"
        (some ⟨fun _ _ _ _ _ => QueryResult.none, fun _ => []⟩)
        ⟨[⟨0⟩]⟩ none (fun _ => 200)).snd.length = 1 := ⟨rfl, rfl⟩

/-- C1 amended: when the local-shortcut flag is enabled and an active
session is present, `query_spans` and `get_evaluations` delegate to the
session with the defaulted/resolved arguments and return its result
verbatim, issuing no network request; `log_evaluations` and `log_traces`
always take the network path, issuing one request per item even then. -/
theorem local_shortcut_delegation (c : Client)
    (hflag : c.useActiveSessionIfAvailable = true) (session : ActiveSession)
    (envProjectName : String) (queries : List SpanQuery)
    (startTime stopTime : Option Datetime) (rootSpansOnly : Option Bool)
    (projectName evalProjectName : Option String) (response : Response) :
    (Client.querySpans c envProjectName (some session) queries startTime
        stopTime rootSpansOnly projectName response =
      (Except.ok (session.querySpans
          (if queries.isEmpty then [SpanQuery.default] else queries)
          startTime stopTime rootSpansOnly
          (pyOrStr projectName envProjectName)), [])) ∧
    (Client.getEvaluations c envProjectName (some session) evalProjectName
        response =
      (Except.ok (session.getEvaluations
          (pyOrStr evalProjectName envProjectName)), [])) ∧
    (∀ (evals : List Evaluations) (pn : Option String) (statuses : Nat → Nat),
      (∀ j, raisesForStatus (statuses j) = false) →
      (Client.logEvaluations c envProjectName (some session) evals pn
          statuses).snd.length = evals.length) ∧
    (∀ (ds : TraceDataset) (pn : Option String) (statuses : Nat → Nat),
      (∀ j, raisesForStatus (statuses j) = false) →
      (Client.logTraces c envProjectName (some session) ds pn
          statuses).snd.length = ds.toSpans.length) := by
  refine ⟨?_, ?_, ?_, ?_⟩
  · simp [Client.querySpans, hflag]
  · simp [Client.getEvaluations, hflag]
  · intro evals pn statuses h
    simp [Client.logEvaluations, postEach_all_success _ _ _ h]
  · intro ds pn statuses h
    simp [Client.logTraces, postEach_all_success _ _ _ h, TraceDataset.toSpans]

/-- Witness for C1 amended: a concrete client with the flag on delegates
`query_spans` to a concrete session verbatim with zero requests. -/
theorem local_shortcut_delegation_witness :
    Client.querySpans ⟨true, "u"⟩ "default"
        (some ⟨fun _ _ _ _ _ => QueryResult.single ⟨7, 7⟩, fun _ => []⟩)
        [] none none none none ⟨200, "", []⟩ =
      (Except.ok (QueryResult.single ⟨7, 7⟩), []) :=
  (local_shortcut_delegation ⟨true, "u"⟩ rfl
      ⟨fun _ _ _ _ _ => QueryResult.single ⟨7, 7⟩, fun _ => []⟩
      "default" [] none none none none none ⟨200, "", []⟩).1

/-- C9 counterexample: an endpoint argument that is explicitly supplied
but empty (`endpoint=""`) is falsy in Python, so
`use_active_session_if_available and not endpoint` leaves the
local-shortcut flag on — the claim that any supplied endpoint forces the
flag off is false. -/
theorem empty_endpoint_keeps_shortcut_cex :
    (Client.construct (some "") true none "localhost"
        6006).useActiveSessionIfAvailable = true := rfl

/-- C9 amended: supplying a non-empty endpoint at construction forces the
local-shortcut flag off regardless of `use_active_session_if_available`,
so `query_spans` and `get_evaluations` behave exactly as with no active
session — every operation takes the remote path — even when a session
exists. -/
theorem endpoint_disables_local_shortcut (endpoint : String)
    (he : endpoint ≠ "") (useActive : Bool)
    (envCollectorEndpoint : Option String) (envHost : String)
    (envPort : Nat) :
    ((Client.construct (some endpoint) useActive envCollectorEndpoint
        envHost envPort).useActiveSessionIfAvailable = false) ∧
    (∀ (session : ActiveSession) (envProjectName : String)
        (queries : List SpanQuery) (startTime stopTime : Option Datetime)
        (rootSpansOnly : Option Bool) (projectName : Option String)
        (response : Response),
      Client.querySpans
          (Client.construct (some endpoint) useActive envCollectorEndpoint
            envHost envPort)
          envProjectName (some session) queries startTime stopTime
          rootSpansOnly projectName response =
        Client.querySpans
          (Client.construct (some endpoint) useActive envCollectorEndpoint
            envHost envPort)
          envProjectName none queries startTime stopTime rootSpansOnly
          projectName response) ∧
    (∀ (session : ActiveSession) (envProjectName : String)
        (projectName : Option String) (response : Response),
      Client.getEvaluations
          (Client.construct (some endpoint) useActive envCollectorEndpoint
            envHost envPort)
          envProjectName (some session) projectName response =
        Client.getEvaluations
          (Client.construct (some endpoint) useActive envCollectorEndpoint
            envHost envPort)
          envProjectName none projectName response) := by
  have hflag : (Client.construct (some endpoint) useActive
      envCollectorEndpoint envHost envPort).useActiveSessionIfAvailable =
      false := by
    simp [Client.construct, pyTruthyOptStr, he]
  refine ⟨hflag, ?_, ?_⟩
  · intro session envProjectName queries startTime stopTime rootSpansOnly
      projectName response
    simp [Client.querySpans, hflag]
  · intro session envProjectName projectName response
    simp [Client.getEvaluations, hflag]

/-- Witness for C9 amended: a concrete non-empty endpoint with the
shortcut argument `true` still yields a client whose flag is off. -/
theorem endpoint_disables_local_shortcut_witness :
    (Client.construct (some "http://example.com:6006") true none
        "localhost" 6006).useActiveSessionIfAvailable = false :=
  (endpoint_disables_local_shortcut "http://example.com:6006"
      (by decide) true none "localhost" 6006).1

/-- C7: on an all-success transport, a TraceDataset with M spans makes
`log_traces` issue exactly M export requests, and each request body is
the gzip-compressed serialization of a message containing exactly one
Resource whose sole attribute is the resolved project name (under the key
`openinference.project.name`), exactly one instrumentation-scope wrapper,
and exactly one span. -/
theorem logTraces_one_request_per_span (c : Client)
    (envProjectName : String) (active : Option ActiveSession)
    (traceDataset : TraceDataset) (projectName : Option String)
    (statuses : Nat → Nat)
    (hsucc : ∀ j, raisesForStatus (statuses j) = false) :
    ((Client.logTraces c envProjectName active traceDataset projectName
        statuses).snd.length = traceDataset.toSpans.length) ∧
    (∀ req ∈ (Client.logTraces c envProjectName active traceDataset
        projectName statuses).snd,
      req.method = "POST" ∧ req.path = "/v1/traces" ∧
      ∃ msg : ExportTraceServiceRequest,
        req.body = RequestBody.gzippedProto msg ∧
        msg.resourceSpans.length = 1 ∧
        ∀ rs ∈ msg.resourceSpans,
          rs.resource.attributes =
            [⟨"openinference.project.name",
              ⟨pyOrStr projectName envProjectName⟩⟩] ∧
          rs.scopeSpans.length = 1 ∧
          ∀ ss ∈ rs.scopeSpans, ss.spans.length = 1) := by
  have hloop : Client.logTraces c envProjectName active traceDataset
      projectName statuses =
      (Except.ok (), traceDataset.toSpans.map
        (traceExportRequest (pyOrStr projectName envProjectName))) := by
    simp [Client.logTraces, postEach_all_success _ _ _ hsucc]
  rw [hloop]
  constructor
  · simp
  · intro req hreq
    obtain ⟨span, _, hspan⟩ := List.mem_map.mp hreq
    subst hspan
    refine ⟨rfl, rfl,
      otlpMessageForSpan (pyOrStr projectName envProjectName) span,
      rfl, rfl, ?_⟩
    intro rs hrs
    simp only [otlpMessageForSpan, List.mem_singleton] at hrs
    subst hrs
    refine ⟨rfl, rfl, ?_⟩
    intro ss hss
    simp only [List.mem_singleton] at hss
    subst hss
    rfl

/-- Witness for C7: a concrete two-span dataset issues exactly two
export requests. -/
theorem logTraces_one_request_per_span_witness :
    (Client.logTraces ⟨false, "u"⟩ "default" none ⟨[⟨0⟩, ⟨1⟩]⟩ none
        (fun _ => 200)).snd.length = 2 :=
  (logTraces_one_request_per_span ⟨false, "u"⟩ "default" none
      ⟨[⟨0⟩, ⟨1⟩]⟩ none (fun _ => 200) (fun _ => rfl)).1

/-- C8: in `log_evaluations` and `log_traces`, a transport failure on the
k-th item raises immediately: the requests issued are exactly one per
item up to and including the failing one, and no request is issued for
any later item. -/
theorem upload_midbatch_failure_stops (c : Client) (envProjectName : String)
    (active : Option ActiveSession) (projectName : Option String)
    (statuses : Nat → Nat) (k : Nat)
    (hbefore : ∀ j < k, raisesForStatus (statuses j) = false)
    (hfail : raisesForStatus (statuses k) = true) :
    (∀ evals : List Evaluations, k < evals.length →
      Client.logEvaluations c envProjectName active evals projectName
          statuses =
        (Except.error (ClientError.transportFailure (statuses k)),
          (evals.take (k + 1)).map
            (evalUploadRequest (pyOrStr projectName envProjectName)))) ∧
    (∀ ds : TraceDataset, k < ds.toSpans.length →
      Client.logTraces c envProjectName active ds projectName statuses =
        (Except.error (ClientError.transportFailure (statuses k)),
          (ds.toSpans.take (k + 1)).map
            (traceExportRequest (pyOrStr projectName envProjectName)))) := by
  have hbefore0 : ∀ j < k, raisesForStatus (statuses (0 + j)) = false := by
    simpa using hbefore
  have hfail0 : raisesForStatus (statuses (0 + k)) = true := by
    simpa using hfail
  constructor
  · intro evals hk
    have hk' : k < (evals.map
        (evalUploadRequest (pyOrStr projectName envProjectName))).length := by
      simpa using hk
    have := postEach_stops_at_first_failure _ statuses k 0 hk' hbefore0 hfail0
    simp only [Nat.zero_add] at this
    simp [Client.logEvaluations, this, List.map_take]
  · intro ds hk
    have hk' : k < (ds.toSpans.map
        (traceExportRequest (pyOrStr projectName envProjectName))).length := by
      simpa using hk
    have := postEach_stops_at_first_failure _ statuses k 0 hk' hbefore0 hfail0
    simp only [Nat.zero_add, TraceDataset.toSpans] at this
    simp [Client.logTraces, this, List.map_take, TraceDataset.toSpans]

/-- Witness for C8: with three evaluations and a transport that fails the
second request with status 500, exactly two requests are issued and the
failure is raised. -/
theorem upload_midbatch_failure_stops_witness :
    Client.logEvaluations ⟨false, "u"⟩ "default" none
        [⟨⟨1, 1⟩⟩, ⟨⟨2, 2⟩⟩, ⟨⟨3, 3⟩⟩] none
        (fun j => if j = 1 then 500 else 200) =
      (Except.error (ClientError.transportFailure 500),
        ([⟨⟨1, 1⟩⟩, ⟨⟨2, 2⟩⟩, (⟨⟨3, 3⟩⟩ : Evaluations)].take 2).map
          (evalUploadRequest "default")) :=
  (upload_midbatch_failure_stops ⟨false, "u"⟩ "default" none none
      (fun j => if j = 1 then 500 else 200) 1 (by decide) (by decide)).1
    [⟨⟨1, 1⟩⟩, ⟨⟨2, 2⟩⟩, ⟨⟨3, 3⟩⟩] (by decide)

end Phoenix
